import Mathlib

/-
Verification development for the tickets-bot repository.
Shallow embedding of the Object Store records, the id generators
(core/db/universalDB.ts and core/db/postgresDB.ts, which share the same
logic), the ticket lifecycle handler (modules/ticket/ticketHandler.ts),
the setup wizard commit (modules/ticket/setupWizard.ts) and the
interaction router (core/interactionRouter.ts).

External effects (channel fetch/create/rename/move, message send) are
modelled as oracle parameters carrying the outcome the platform would
return; store reads and writes are explicit state passing over a Store
value. Machine timestamps are Nat.
-/

set_option maxRecDepth 10000

namespace TicketsBot

/-- Question kind from the CustomQuestion interface
(text plus type, where type is primary or optional). -/
inductive QuestionType where
  | primary
  | optional
deriving DecidableEq, Repr

/-- One configured intake question, interface CustomQuestion. -/
structure CustomQuestion where
  text : String
  type : QuestionType
deriving DecidableEq, Repr

/-- Panel record, interface PanelData (core/db files). Optional TS fields
become Option; the type discriminator tag is implicit in the Lean type. -/
structure PanelData where
  id : String
  name : Option String
  channel : Option String
  openCategory : Option String
  closeCategory : Option String
  staffRole : Option String
  logsChannel : Option String
  transcriptChannel : Option String
  label : String
  emoji : String
  color : String
  description : String
  openMessage : String
  questions : List String
  customQuestions : List CustomQuestion
  claimable : Bool
  allowOwnerClose : Option Bool
  enabled : Bool
  messageId : Option String
  ticketsCreated : Option Nat
  userPermissions : List String
  staffPermissions : List String
deriving DecidableEq, Repr

/-- Ticket record, interface TicketData. The state field keeps the source
string values "open" and "closed". -/
structure TicketData where
  id : String
  owner : String
  panelId : String
  channelId : String
  state : String
  claimedBy : Option String
  createdAt : Nat
  closedAt : Option Nat
  welcomeMessageId : Option String
  closeMessageId : Option String
deriving DecidableEq, Repr

/-- The data payload of an Autosave record: a draft Panel where every
field may still be absent (TS Partial of PanelData, plus the id slot the
wizard stores when editing an existing panel). -/
structure PanelDraft where
  id : Option String
  name : Option String
  channel : Option String
  openCategory : Option String
  closeCategory : Option String
  staffRole : Option String
  logsChannel : Option String
  transcriptChannel : Option String
  label : Option String
  emoji : Option String
  color : Option String
  description : Option String
  openMessage : Option String
  questions : Option (List String)
  customQuestions : Option (List CustomQuestion)
  claimable : Option Bool
  allowOwnerClose : Option Bool
  enabled : Option Bool
  userPermissions : Option (List String)
  staffPermissions : Option (List String)
deriving DecidableEq, Repr

/-- Autosave record, interface AutosaveData: keyed by the user id, holds
the draft payload and the optional temp panel used by the resend prompt. -/
structure AutosaveData where
  userId : String
  data : PanelDraft
  tempPanel : Option PanelData
deriving DecidableEq, Repr

/-- The Object Store. The source keeps one heterogeneous table keyed by a
namespaced id string (panel:n, ticket:n, autosave:userId); since the
namespaces are disjoint this is equivalently one list per record kind. -/
structure Store where
  tickets : List TicketData
  panels : List PanelData
  autosaves : List AutosaveData
deriving DecidableEq, Repr

/-- INSERT OR REPLACE semantics of db.save: replace every row whose key
matches, else append. -/
def upsertBy {α : Type} (key : α → String) (xs : List α) (x : α) : List α :=
  if xs.any (fun y => key y = key x) then
    xs.map (fun y => if key y = key x then x else y)
  else xs ++ [x]

def Store.saveTicket (s : Store) (t : TicketData) : Store :=
  { s with tickets := upsertBy TicketData.id s.tickets t }

def Store.savePanel (s : Store) (p : PanelData) : Store :=
  { s with panels := upsertBy PanelData.id s.panels p }

def Store.saveAutosave (s : Store) (a : AutosaveData) : Store :=
  { s with autosaves := upsertBy AutosaveData.userId s.autosaves a }

def Store.getTicket (s : Store) (id : String) : Option TicketData :=
  s.tickets.find? (fun t => t.id = id)

def Store.getPanel (s : Store) (id : String) : Option PanelData :=
  s.panels.find? (fun p => p.id = id)

def Store.getAutosave (s : Store) (userId : String) : Option AutosaveData :=
  s.autosaves.find? (fun a => a.userId = userId)

def Store.deleteAutosave (s : Store) (userId : String) : Store :=
  { s with autosaves := s.autosaves.filter (fun a => a.userId ≠ userId) }

def Store.deleteTicket (s : Store) (id : String) : Store :=
  { s with tickets := s.tickets.filter (fun t => t.id ≠ id) }

/-- Split a character list on a delimiter, the splitting JS
String.split performs (written over List Char because the builtin
String.splitOn does not reduce in the kernel). -/
def splitOnChar (c : Char) : List Char → List (List Char)
  | [] => [[]]
  | a :: rest =>
    match splitOnChar c rest with
    | [] => if a = c then [[], []] else [[a]]
    | g :: gs => if a = c then [] :: g :: gs else (a :: g) :: gs

/-- parseInt on an all-digit piece; anything else yields none (the
source would produce NaN there, a case outside every well-formed
store). -/
def charsToNat? (cs : List Char) : Option Nat :=
  if cs ≠ [] ∧ cs.all Char.isDigit then
    some (cs.foldl (fun n c => n * 10 + (c.toNat - 48)) 0)
  else none

/-- parseInt(id.split(colon)[1]) of the id generators, for well-formed
numeric suffixes. -/
def idSuffix (id : String) : Option Nat :=
  match (splitOnChar ':' id.toList).drop 1 with
  | s :: _ => charsToNat? s
  | [] => none

/-- ids.length greater than 0 so take Math.max of the list, else 1000. -/
def maxSuffix (ns : List Nat) : Nat :=
  match ns with
  | [] => 1000
  | n :: rest => rest.foldl max n

/-- generateTicketId of universalDB/postgresDB: one greater than the
largest numeric suffix among stored tickets, base 1000 when none exist.
Unparsable suffixes (NaN in the source) are skipped here; every theorem
about this function hypothesises that all stored suffixes parse. -/
def generateTicketId (tickets : List TicketData) : String :=
  "ticket:" ++ toString (maxSuffix (tickets.filterMap (fun t => idSuffix t.id)) + 1)

/-- generatePanelId of universalDB/postgresDB, same shape over panels. -/
def generatePanelId (panels : List PanelData) : String :=
  "panel:" ++ toString (maxSuffix (panels.filterMap (fun p => idSuffix p.id)) + 1)

/-
Ticket lifecycle handler (modules/ticket/ticketHandler.ts).
-/

/-- The acting member as closeTicket sees it: the user id, the role ids
held in the guild, and whether memberPermissions grants ManageChannels. -/
structure Actor where
  userId : String
  roles : List String
  manageChannels : Bool
deriving DecidableEq, Repr

/-- Staff test used by close and claim: member holds the panels staff
role (empty string when unset) or the ManageChannels permission. -/
def isStaff (panel : PanelData) (actor : Actor) : Bool :=
  actor.roles.contains (panel.staffRole.getD "") || actor.manageChannels

/-- Outcome of one awaited platform channel operation: it resolves,
rejects with an error, or hangs past the 10 second timeout race. -/
inductive OpOutcome where
  | ok
  | err (message : String)
  | timeout
deriving DecidableEq, Repr

def opFailed (o : OpOutcome) : Bool :=
  match o with
  | .ok => false
  | _ => true

/-- The success and error fields of the record safeChannelOperation
returns (the result payload, the mutated channel, is omitted). -/
structure SafeOpResult where
  success : Bool
  error : Option String
deriving DecidableEq, Repr

/-- safeChannelOperation: the try/catch plus 10 second timeout race. An
operation that resolves reports success; a rejection is caught and
returned as success false with its error; a timeout loses the race
against the rejection of the timer promise and is caught the same way.
The per-channel minimum-delay sleep only delays the call and has no
effect on the returned record. -/
def safeChannelOperation (outcome : OpOutcome) : SafeOpResult :=
  match outcome with
  | .ok => { success := true, error := none }
  | .err e => { success := false, error := some e }
  | .timeout => { success := false, error := some "Operation timed out after 10 seconds" }

/-- The fetched ticket channel as the handler sees it. -/
structure ChannelInfo where
  id : String
  name : String
deriving DecidableEq, Repr

/-- Oracle for the external calls closeTicket and reopenTicket make:
the channel fetch result (none covers both fetch failure and a
non-guild-text channel), the rename and move outcomes, and the clock. -/
structure CloseEnv where
  channel : Option ChannelInfo
  renameOutcome : OpOutcome
  moveOutcome : OpOutcome
  now : Nat
deriving DecidableEq, Repr

/-- Close renaming: claimed- becomes closed-claimed-, ticket- becomes
closed-ticket-, anything else gains a leading closed-. -/
def closedChannelName (name : String) : String :=
  if name.startsWith "claimed-" then "closed-claimed-" ++ name.drop 8
  else if name.startsWith "ticket-" then "closed-ticket-" ++ name.drop 7
  else "closed-" ++ name

/-- Reopen renaming, the inverse direction. -/
def reopenedChannelName (name : String) : String :=
  if name.startsWith "closed-claimed-" then "claimed-" ++ name.drop 15
  else if name.startsWith "closed-ticket-" then "ticket-" ++ name.drop 14
  else if name.startsWith "closed-" then name.drop 7
  else if name.startsWith "ticket-" then name
  else "ticket-" ++ name

inductive CloseOutcome where
  | ticketNotFound
  | alreadyClosed
  | panelNotFound
  | ownerCloseDenied
  | channelNotFound
  | closed (reply : String)
deriving DecidableEq, Repr

/-- The followUp text on a successful close, with the warning appended
when the rename or the move came back unsuccessful. -/
def closeSuccessReply (renameOk moveOk : Bool) : String :=
  "<:tcet_tick:1437995479567962184> Ticket closed successfully." ++
    (if renameOk && moveOk then ""
     else "\n⚠️ Note: Some channel operations were rate-limited by Discord. The ticket is closed, but the channel may not have been renamed or moved yet.")

/-- closeTicket: look up the ticket, reject when missing or already
closed, look up the panel, reject an owner close when the panel forbids
it and the owner is not staff, fetch the channel, run the guarded rename
and (when a close category is configured) move, strip the owner
overwrite (external only), then save state closed with the close
timestamp and reply, appending the soft warning when an operation
failed. Transcript generation is kicked off after the reply via
setImmediate and touches no store state, so it is modelled separately. -/
def closeTicket (s : Store) (actor : Actor) (ticketId : String) (env : CloseEnv) :
    Store × CloseOutcome :=
  match s.getTicket ticketId with
  | none => (s, .ticketNotFound)
  | some ticket =>
    if ticket.state = "closed" then (s, .alreadyClosed)
    else
      match s.getPanel ticket.panelId with
      | none => (s, .panelNotFound)
      | some panel =>
        if ticket.owner = actor.userId ∧ panel.allowOwnerClose = some false ∧
            ¬ isStaff panel actor then
          (s, .ownerCloseDenied)
        else
          match env.channel with
          | none => (s, .channelNotFound)
          | some _ =>
            let renameResult := safeChannelOperation env.renameOutcome
            let moveSuccess :=
              if panel.closeCategory.isSome then (safeChannelOperation env.moveOutcome).success
              else true
            let ticket1 := { ticket with state := "closed", closedAt := some env.now }
            (s.saveTicket ticket1, .closed (closeSuccessReply renameResult.success moveSuccess))

inductive ReopenOutcome where
  | ticketNotFound
  | alreadyOpen
  | panelNotFound
  | channelNotFound
  | reopened (reply : String)
deriving DecidableEq, Repr

/-- The followUp text on a successful reopen. -/
def reopenSuccessReply (renameOk moveOk : Bool) : String :=
  "<:tcet_tick:1437995479567962184> Ticket reopened successfully." ++
    (if renameOk && moveOk then ""
     else "\n⚠️ Note: Some channel operations were rate-limited by Discord. The ticket is open, but the channel may not have been renamed or moved yet.")

/-- reopenTicket: reject when missing or already open, look up the
panel, fetch the channel, run the guarded rename and (when an open
category is configured) move, restore the owner overwrite (external
only), then save state open with closedAt and closeMessageId cleared,
welcomeMessageId untouched. No permission check exists on this path. -/
def reopenTicket (s : Store) (ticketId : String) (env : CloseEnv) :
    Store × ReopenOutcome :=
  match s.getTicket ticketId with
  | none => (s, .ticketNotFound)
  | some ticket =>
    if ticket.state = "open" then (s, .alreadyOpen)
    else
      match s.getPanel ticket.panelId with
      | none => (s, .panelNotFound)
      | some panel =>
        match env.channel with
        | none => (s, .channelNotFound)
        | some _ =>
          let renameResult := safeChannelOperation env.renameOutcome
          let moveSuccess :=
            if panel.openCategory.isSome then (safeChannelOperation env.moveOutcome).success
            else true
          let ticket1 :=
            { ticket with state := "open", closedAt := none, closeMessageId := none }
          (s.saveTicket ticket1, .reopened (reopenSuccessReply renameResult.success moveSuccess))

/-
Ticket opening (openTicket and createTicketChannel).
-/

/-- The filter condition of the uniqueness check in openTicket: a
stored ticket owned by the user, in state open, against the same
panel. -/
def openPred (userId panelId : String) (t : TicketData) : Bool :=
  t.owner = userId ∧ t.state = "open" ∧ t.panelId = panelId

/-- The uniqueness filter of openTicket. -/
def openFor (s : Store) (userId panelId : String) : List TicketData :=
  s.tickets.filter (openPred userId panelId)

/-- The intake questions put on the modal: the first five configured. -/
def questionsToShow (panel : PanelData) : List String :=
  panel.questions.take 5

/-- The type recorded for a configured question text, looked up in the
customQuestions list kept alongside the legacy plain-string list. -/
def questionTypeOf (panel : PanelData) (q : String) : Option QuestionType :=
  (panel.customQuestions.find? (fun c => c.text = q)).map (fun c => c.type)

/-- Holds when no question typed optional appears anywhere before a
question typed primary (the ordering the spec asserts for the surfaced
questions). -/
def noOptionalBeforePrimary : List (Option QuestionType) → Bool
  | [] => true
  | a :: rest =>
    (!(a == some QuestionType.optional && rest.any (fun b => b == some QuestionType.primary)))
      && noOptionalBeforePrimary rest

inductive OpenOutcome where
  | panelNotFound
  | alreadyOpen (existingChannelId : String)
  | modalShown (questionLabels : List String)
  | created (ticketId : String) (channelId : String)
  | createFailed
deriving DecidableEq, Repr

/-- Oracle for the external calls of ticket creation: the id of the
created channel (none when guild.channels.create throws), the id of the
sent welcome message (none when that send throws), and the clock. -/
structure OpenEnv where
  newChannelId : Option String
  welcomeMsgId : Option String
  now : Nat
deriving DecidableEq, Repr

/-- createTicketChannel: generate the sequential id, create the channel,
save the ticket in state open, increment the panels created counter and
save it, send the welcome message and store its id back on the ticket.
Any throw lands in the catch after the writes already made. -/
def createTicketChannel (s : Store) (userId panelId : String) (panel : PanelData)
    (env : OpenEnv) : Store × OpenOutcome :=
  let ticketId := generateTicketId s.tickets
  match env.newChannelId with
  | none => (s, .createFailed)
  | some cid =>
    let ticket : TicketData :=
      { id := ticketId, owner := userId, panelId := panelId, channelId := cid,
        state := "open", claimedBy := none, createdAt := env.now, closedAt := none,
        welcomeMessageId := none, closeMessageId := none }
    let s1 := s.saveTicket ticket
    let s2 := s1.savePanel { panel with ticketsCreated := some (panel.ticketsCreated.getD 0 + 1) }
    match env.welcomeMsgId with
    | none => (s2, .createFailed)
    | some wm => (s2.saveTicket { ticket with welcomeMessageId := some wm }, .created ticketId cid)

/-- openTicket: look up the panel, reject when the user already has an
open ticket against it (pointing at that tickets channel), show the
question modal when questions are configured (labels are the first five
questions truncated to 45 characters; creation is deferred to the modal
submission), else create immediately. -/
def openTicket (s : Store) (userId panelId : String) (env : OpenEnv) :
    Store × OpenOutcome :=
  match s.getPanel panelId with
  | none => (s, .panelNotFound)
  | some panel =>
    match openFor s userId panelId with
    | t :: _ => (s, .alreadyOpen t.channelId)
    | [] =>
      if panel.questions.length > 0 then
        (s, .modalShown ((questionsToShow panel).map (fun q => q.take 45)))
      else
        createTicketChannel s userId panelId panel env

/-- At most one ticket in state open per owner and panel pair. -/
def atMostOneOpen (s : Store) : Prop :=
  ∀ userId panelId, (openFor s userId panelId).length ≤ 1

/-
Transcript delivery routing (generateTranscript, the manual on-demand
path, and autoGenerateTranscript, the path launched after a close).
The rendering itself is the external collaborator; only the delivery
attempts are modelled. Each attempt sits in its own try/catch, so a
failed delivery is logged and the next attempt still runs.
-/

inductive DeliveryTarget where
  | transcriptChannel
  | logsChannel
  | ownerDM
deriving DecidableEq, Repr

/-- Delivery attempts of autoGenerateTranscript, in source order: the
configured transcript channel, the configured logs channel, then the
owners direct messages. -/
def autoGenerateTranscriptAttempts (p : PanelData) : List DeliveryTarget :=
  (if p.transcriptChannel.isSome then [DeliveryTarget.transcriptChannel] else []) ++
  (if p.logsChannel.isSome then [DeliveryTarget.logsChannel] else []) ++
  [DeliveryTarget.ownerDM]

/-- Delivery attempts of generateTranscript (manual), in source order. -/
def generateTranscriptAttempts (p : PanelData) : List DeliveryTarget :=
  (if p.transcriptChannel.isSome then [DeliveryTarget.transcriptChannel] else []) ++
  (if p.logsChannel.isSome then [DeliveryTarget.logsChannel] else []) ++
  [DeliveryTarget.ownerDM]

/-- autoGenerateTranscript with per-target send outcomes: every attempt
is made regardless of earlier failures, each failure only logged. -/
def autoGenerateTranscript (p : PanelData) (sendOk : DeliveryTarget → Bool) :
    List (DeliveryTarget × Bool) :=
  (autoGenerateTranscriptAttempts p).map (fun t => (t, sendOk t))

/-
Setup wizard commit (finishSetup in modules/ticket/setupWizard.ts).
-/

/-- Truthiness of an optional string field in the source checks: present
means defined and not the empty string. -/
def strPresent (o : Option String) : Bool :=
  match o with
  | some s => s ≠ ""
  | none => false

/-- JS string-or-default: the default replaces both an absent and an
empty string value. -/
def strOr (o : Option String) (d : String) : String :=
  match o with
  | some s => if s = "" then d else s
  | none => d

/-- The draft an empty autosave slot creates ({} in askToSendNewMessage). -/
def emptyDraft : PanelDraft :=
  { id := none, name := none, channel := none, openCategory := none,
    closeCategory := none, staffRole := none, logsChannel := none,
    transcriptChannel := none, label := none, emoji := none, color := none,
    description := none, openMessage := none, questions := none,
    customQuestions := none, claimable := none, allowOwnerClose := none,
    enabled := none, userPermissions := none, staffPermissions := none }

/-- The default-populated draft getOrCreateAutosave hands out when the
user has no autosave record (it is not persisted at that point). -/
def defaultDraft : PanelDraft :=
  { emptyDraft with
    label := some "Open Ticket",
    emoji := some "<:module:1437997093753983038>",
    color := some "Primary",
    description := some "Click below to open a ticket.",
    openMessage := some "Thank you for contacting support. Please describe your issue in detail.",
    questions := some [],
    claimable := some false,
    enabled := some true,
    userPermissions := some [],
    staffPermissions := some [] }

/-- The draft finishSetup works on: the stored autosave payload, else
the unsaved default draft. -/
def draftOf (s : Store) (userId : String) : PanelDraft :=
  match s.getAutosave userId with
  | some a => a.data
  | none => defaultDraft

/-- The required-field validation of finishSetup. -/
def draftValid (d : PanelDraft) : Bool :=
  strPresent d.name && strPresent d.channel && strPresent d.openCategory &&
    strPresent d.staffRole

/-- String startsWith, written over the character lists so that it
reduces in the kernel. -/
def strStartsWith (s pre : String) : Bool :=
  pre.toList.isPrefixOf s.toList

/-- isEdit: the draft carries a panel id starting with the panel
namespace. -/
def draftIsEdit (d : PanelDraft) : Bool :=
  strPresent d.id && strStartsWith (d.id.getD "") "panel:"

/-- The fixed rejection text of finishSetup; it lists all four required
field names whatever subset is actually missing. -/
def missingFieldsReply : String :=
  "<:tcet_cross:1437995480754946178> Please fill in all required fields: Panel Name, Channel, Open Category, and Staff Role."

/-- The committed Panel record finishSetup builds from a valid draft:
defaults substituted for the optional fields, the counter and rendered
message id read back from the existing record on an edit, fresh
sequential id otherwise. -/
def buildPanel (s : Store) (d : PanelDraft) : PanelData :=
  let isEdit := draftIsEdit d
  let panelId := if isEdit then d.id.getD "" else generatePanelId s.panels
  { id := panelId,
    name := d.name,
    channel := d.channel,
    openCategory := d.openCategory,
    closeCategory := d.closeCategory,
    staffRole := d.staffRole,
    logsChannel := d.logsChannel,
    transcriptChannel := d.transcriptChannel,
    label := strOr d.label "Open Ticket",
    emoji := strOr d.emoji "<:module:1437997093753983038>",
    color := strOr d.color "Primary",
    description := strOr d.description "Click below to open a ticket.",
    openMessage := strOr d.openMessage "Thank you for contacting support.",
    questions := d.questions.getD [],
    customQuestions := d.customQuestions.getD [],
    claimable := d.claimable.getD false,
    allowOwnerClose := some (decide (d.allowOwnerClose ≠ some false)),
    enabled := d.enabled.getD true,
    ticketsCreated :=
      if isEdit then some (((s.getPanel panelId).bind PanelData.ticketsCreated).getD 0)
      else some 0,
    messageId := if isEdit then (s.getPanel panelId).bind PanelData.messageId else none,
    userPermissions := d.userPermissions.getD [],
    staffPermissions := d.staffPermissions.getD [] }

inductive FinishOutcome where
  | missingFields (reply : String)
  | resendPrompt (panel : PanelData)
  | finished (panel : PanelData) (reply : String)
deriving DecidableEq, Repr

/-- Oracle for the deploy phase of finishSetup: whether the target
channel was fetched and is text based, whether the in-place edit of the
recorded panel message succeeded, and the id of a freshly sent panel
message (none when that send throws; the throw is caught and only
logged). -/
structure FinishEnv where
  channelOk : Bool
  editMessageOk : Bool
  newMessageId : Option String
deriving DecidableEq, Repr

/-- The closing editReply text of a successful finish. -/
def finishReply (isEdit : Bool) (p : PanelData) : String :=
  "<:tcet_tick:1437995479567962184> **Panel \"" ++ p.name.getD "" ++ "\" " ++
    (if isEdit then "updated" else "created") ++
    " successfully!**\n\nYou can now use it in <#" ++ p.channel.getD "" ++ ">"

/-- finishSetup: validate the draft (rejecting with the fixed message
and no store change when a required field is missing), build and save the
panel, delete the autosave, then deploy the panel message: an edit with
a recorded message id edits it in place, falling back to the resend
confirmation prompt (which parks the built panel in a fresh autosave
temp slot) when the message is gone; otherwise a new message is sent and
its id saved onto the panel; deploy failures are caught and the success
reply still issued. -/
def finishSetup (s : Store) (userId : String) (env : FinishEnv) :
    Store × FinishOutcome :=
  let d := draftOf s userId
  if draftValid d then
    let isEdit := draftIsEdit d
    let panel := buildPanel s d
    let s1 := (s.savePanel panel).deleteAutosave userId
    if env.channelOk then
      if isEdit && panel.messageId.isSome then
        if env.editMessageOk then (s1, .finished panel (finishReply isEdit panel))
        else
          (s1.saveAutosave { userId := userId, data := emptyDraft, tempPanel := some panel },
           .resendPrompt panel)
      else
        match env.newMessageId with
        | some mid =>
          let panel1 := { panel with messageId := some mid }
          (s1.savePanel panel1, .finished panel1 (finishReply isEdit panel1))
        | none => (s1, .finished panel (finishReply isEdit panel))
    else (s1, .finished panel (finishReply isEdit panel))
  else (s, .missingFields missingFieldsReply)

/-
Interaction router (core/interactionRouter.ts, class InteractionRouter).
-/

inductive InteractionKind where
  | button
  | selectMenu
  | modalSubmit
  | other
deriving DecidableEq, Repr

/-- The interaction as the router sees it: its component kind, the
opaque identifier, the acknowledgment flags and repliability. -/
structure Interaction where
  kind : InteractionKind
  customId : String
  replied : Bool
  deferred : Bool
  repliable : Bool
deriving DecidableEq, Repr

/-- A registered handler, reduced to the behaviour the router can
observe: the execute promise resolves or rejects with an error. -/
inductive HandlerSpec where
  | succeeds
  | throws (message : String)
deriving DecidableEq, Repr

/-- Oracle for the routers own external calls: whether deferUpdate
succeeds (its failure is caught and logged) and whether the generic
error notice lands (its failure is caught and logged too). -/
structure RouterEnv where
  deferOk : Bool
  notifyOk : Bool
deriving DecidableEq, Repr

/-- The fixed action lists deciding the acknowledgment policy. -/
def modalActions : List String :=
  ["set-name", "set-description", "set-openmessage", "add-question", "set-label", "set-emoji"]

def ephemeralActions : List String :=
  ["open"]

/-- customId.split on the colon delimiter (written over splitOnChar so
that it reduces in the kernel). -/
def splitId (s : String) : List String :=
  (splitOnChar ':' s.toList).map String.mk

/-- The pre-acknowledgment step: a button or select menu whose action is
neither modal-opening nor ephemeral-first is deferred as an update when
not yet acknowledged; a failed defer is swallowed and leaves the flags
untouched. -/
def applyDefer (i : Interaction) (env : RouterEnv) : Interaction :=
  let action := ((splitId i.customId).drop 1).headD ""
  if ¬ modalActions.contains action ∧ ¬ ephemeralActions.contains action ∧
      i.kind ≠ .modalSubmit ∧ (i.kind = .button ∨ i.kind = .selectMenu) ∧
      ¬ i.replied ∧ ¬ i.deferred then
    if env.deferOk then { i with deferred := true } else i
  else i

inductive RouteResult where
  | ignored
  | handled (system : String) (parts : List String)
  | droppedNoHandler (system : String)
  | errorNotified (viaEditReply : Bool) (delivered : Bool)
  | errorNotRepliable
deriving DecidableEq, Repr

/-- route: ignore non-component interactions, split the identifier on
the colon delimiter, apply the defer policy, dispatch to the handler
registered for the system part (logging and dropping the interaction
when there is none). A throw from the handler is caught and logged and a
generic failure notice is attempted, editReply when the interaction is
already acknowledged and an ephemeral reply otherwise, any error of that
attempt swallowed; the router returns normally on every path. -/
def route (handlers : List (String × HandlerSpec)) (i : Interaction) (env : RouterEnv) :
    RouteResult :=
  if i.kind = .other then .ignored
  else
    let parts := splitId i.customId
    let system := parts.headD ""
    let i1 := applyDefer i env
    match handlers.find? (fun h => h.1 = system) with
    | some (_, .succeeds) => .handled system parts
    | some (_, .throws _) =>
      if i1.repliable then
        if i1.replied ∨ i1.deferred then .errorNotified true env.notifyOk
        else .errorNotified false env.notifyOk
      else .errorNotRepliable
    | none => .droppedNoHandler system

/-
Concrete fixtures used by the claim theorems, their witnesses and
counterexamples.
-/

/-- A concrete ticket record used to evaluate the generator theorems. -/
def tk1001 : TicketData :=
  { id := "ticket:1001", owner := "alice", panelId := "panel:1001",
    channelId := "chan-a", state := "open", claimedBy := none, createdAt := 0,
    closedAt := none, welcomeMessageId := none, closeMessageId := none }

/-- A second concrete ticket record, holding the highest suffix. -/
def tk1002 : TicketData :=
  { tk1001 with id := "ticket:1002", owner := "bob", channelId := "chan-b" }

/-- A generic configured panel used by the concrete scenarios. -/
def basePanel : PanelData :=
  { id := "panel:1001", name := some "Support", channel := some "chan-p",
    openCategory := some "cat-open", closeCategory := none,
    staffRole := some "role-staff", logsChannel := none, transcriptChannel := none,
    label := "Open Ticket", emoji := "<:module:1437997093753983038>",
    color := "Primary", description := "Click below to open a ticket.",
    openMessage := "Thank you for contacting support.", questions := [],
    customQuestions := [], claimable := false, allowOwnerClose := none,
    enabled := true, messageId := none, ticketsCreated := some 0,
    userPermissions := [], staffPermissions := [] }

/-- Store for the C1 scenario: one open ticket owned by alice. -/
def storeC1 : Store :=
  { tickets := [tk1001], panels := [basePanel], autosaves := [] }

/-- An actor who is neither the ticket owner nor staff. -/
def malloryActor : Actor :=
  { userId := "mallory", roles := [], manageChannels := false }

/-- Channel oracle with both operations succeeding. -/
def envOkC1 : CloseEnv :=
  { channel := some { id := "chan-a", name := "ticket-alice" },
    renameOutcome := OpOutcome.ok, moveOutcome := OpOutcome.ok, now := 99 }

/-- A closed ticket for the C1 witness. -/
def tkClosedC1 : TicketData :=
  { tk1001 with id := "ticket:1005", state := "closed", closedAt := some 10 }

/-- Store whose only ticket is already closed. -/
def storeClosedC1 : Store :=
  { tickets := [tkClosedC1], panels := [basePanel], autosaves := [] }

/-- Ticket for the round-trip scenario, carrying a welcome message id
and a stale close message id. -/
def tkC3 : TicketData :=
  { tk1001 with
    id := "ticket:1003", welcomeMessageId := some "wm-1",
    closeMessageId := some "cm-stale" }

/-- Store for the round-trip scenario. -/
def storeC3 : Store :=
  { tickets := [tkC3], panels := [basePanel], autosaves := [] }

/-- Channel oracle for the reopen leg. -/
def envOkC3 : CloseEnv :=
  { channel := some { id := "chan-a", name := "closed-ticket-alice" },
    renameOutcome := OpOutcome.ok, moveOutcome := OpOutcome.ok, now := 120 }

/-- Channel oracle whose rename hangs into the 10 second timeout. -/
def envTimeoutC4 : CloseEnv :=
  { channel := some { id := "chan-a", name := "ticket-alice" },
    renameOutcome := OpOutcome.timeout, moveOutcome := OpOutcome.ok, now := 77 }

/-- A draft missing only the panel name. -/
def draftMissingName : PanelDraft :=
  { defaultDraft with
    channel := some "chan-p", openCategory := some "cat-open",
    staffRole := some "role-staff" }

/-- A draft missing only the staff role. -/
def draftMissingStaff : PanelDraft :=
  { defaultDraft with
    name := some "Support", channel := some "chan-p",
    openCategory := some "cat-open" }

def autosaveMissingName : AutosaveData :=
  { userId := "u1", data := draftMissingName, tempPanel := none }

def autosaveMissingStaff : AutosaveData :=
  { userId := "u1", data := draftMissingStaff, tempPanel := none }

def storeMissingName : Store :=
  { tickets := [], panels := [], autosaves := [autosaveMissingName] }

def storeMissingStaff : Store :=
  { tickets := [], panels := [], autosaves := [autosaveMissingStaff] }

/-- Deploy oracle with everything succeeding. -/
def envFin : FinishEnv :=
  { channelOk := true, editMessageOk := true, newMessageId := some "msg-1" }

/-- A panel whose configured question order puts an optional-typed
question ahead of a primary-typed one. -/
def panelC6 : PanelData :=
  { basePanel with
    questions := ["B", "A"],
    customQuestions :=
      [{ text := "B", type := QuestionType.optional },
       { text := "A", type := QuestionType.primary }] }

def storeC6 : Store :=
  { tickets := [], panels := [panelC6], autosaves := [] }

def envOpen : OpenEnv :=
  { newChannelId := some "chan-new", welcomeMsgId := some "wm-new", now := 0 }

/-- A panel with six configured questions. -/
def panelC6big : PanelData :=
  { basePanel with questions := ["Q1", "Q2", "Q3", "Q4", "Q5", "Q6"] }

def storeC6big : Store :=
  { tickets := [], panels := [panelC6big], autosaves := [] }

/-- A panel with both a transcript channel and a logs channel
configured. -/
def panelC7 : PanelData :=
  { basePanel with transcriptChannel := some "chan-t", logsChannel := some "chan-l" }

/-- The previously committed panel for the C8 witness, holding a live
counter and a rendered message id. -/
def oldPanelC8 : PanelData :=
  { basePanel with ticketsCreated := some 7, messageId := some "pm-1" }

/-- A valid edit draft pointing at the existing panel. -/
def draftEditC8 : PanelDraft :=
  { defaultDraft with
    id := some "panel:1001", name := some "Support",
    channel := some "chan-p", openCategory := some "cat-open",
    staffRole := some "role-staff" }

def autosaveEditC8 : AutosaveData :=
  { userId := "u8", data := draftEditC8, tempPanel := none }

def storeEditC8 : Store :=
  { tickets := [], panels := [oldPanelC8], autosaves := [autosaveEditC8] }

/-- A registry with the ticket handler throwing. -/
def handlersC9 : List (String × HandlerSpec) :=
  [("wizard", HandlerSpec.succeeds), ("ticket", HandlerSpec.throws "boom")]

/-- A button press on a close button of ticket 1001, not yet
acknowledged. -/
def buttonC9 : Interaction :=
  { kind := InteractionKind.button, customId := "ticket:close:ticket:1001",
    replied := false, deferred := false, repliable := true }

/-
Helper lemmas.
-/

theorem foldl_max_spec (ns : List Nat) (n : Nat) :
    (List.foldl max n ns = n ∨ List.foldl max n ns ∈ ns) ∧
      n ≤ List.foldl max n ns ∧ ∀ x ∈ ns, x ≤ List.foldl max n ns := by
  induction ns generalizing n with
  | nil => simp
  | cons a as ih =>
    obtain ⟨h1, h2, h3⟩ := ih (max n a)
    rw [List.foldl_cons]
    refine ⟨?_, le_trans (le_max_left n a) h2, ?_⟩
    · rcases h1 with h | h
      · rcases max_choice n a with hm | hm
        · left; rw [h, hm]
        · right; rw [h, hm]; exact List.mem_cons_self a as
      · right; exact List.mem_cons_of_mem a h
    · intro x hx
      rcases List.mem_cons.mp hx with hx | hx
      · subst hx; exact le_trans (le_max_right n x) h2
      · exact h3 x hx

theorem maxSuffix_mem_le (ns : List Nat) (h : ns ≠ []) :
    maxSuffix ns ∈ ns ∧ ∀ x ∈ ns, x ≤ maxSuffix ns := by
  cases ns with
  | nil => exact absurd rfl h
  | cons n rest =>
    obtain ⟨h1, h2, h3⟩ := foldl_max_spec rest n
    show List.foldl max n rest ∈ n :: rest ∧ ∀ x ∈ n :: rest, x ≤ List.foldl max n rest
    refine ⟨?_, ?_⟩
    · rcases h1 with h' | h'
      · rw [h']; exact List.mem_cons_self n rest
      · exact List.mem_cons_of_mem n h'
    · intro x hx
      rcases List.mem_cons.mp hx with hx | hx
      · subst hx; exact h2
      · exact h3 x hx

theorem maxSuffix_eq_of_mem_le (ns : List Nat) (m : Nat) (hm : m ∈ ns)
    (hle : ∀ x ∈ ns, x ≤ m) : maxSuffix ns = m := by
  have hne : ns ≠ [] := List.ne_nil_of_mem hm
  obtain ⟨h1, h2⟩ := maxSuffix_mem_le ns hne
  exact le_antisymm (hle _ h1) (h2 m hm)

theorem suffix_mem_filterMap {α : Type} (f : α → Option Nat) (xs : List α)
    (x : α) (m : Nat) (hx : x ∈ xs) (hf : f x = some m) :
    m ∈ xs.filterMap f :=
  List.mem_filterMap.mpr ⟨x, hx, hf⟩

theorem suffix_filterMap_le {α : Type} (f : α → Option Nat) (xs : List α) (m : Nat)
    (hle : ∀ x ∈ xs, (f x).getD 0 ≤ m) :
    ∀ n ∈ xs.filterMap f, n ≤ m := by
  intro n hn
  obtain ⟨x, hx, hfx⟩ := List.mem_filterMap.mp hn
  have := hle x hx
  rw [hfx] at this
  simpa using this

/-
Claim C10.
-/

/-- Claim C10: generateTicketId and generatePanelId return the
namespaced id whose numeric suffix is one greater than the largest
suffix among the currently stored records of that kind, ticket:1001 and
panel:1001 when none exist; and since only currently stored records
enter the maximum, saving the generated record and then deleting it (the
record with the highest suffix) makes the generator produce the very
same id again for the next record. -/
theorem generateId_spec :
    (generateTicketId [] = "ticket:1001" ∧ generatePanelId [] = "panel:1001") ∧
    (∀ (ts : List TicketData) (t : TicketData) (m : Nat),
      t ∈ ts → idSuffix t.id = some m →
      (∀ u ∈ ts, (idSuffix u.id).getD 0 ≤ m) →
      generateTicketId ts = "ticket:" ++ toString (m + 1)) ∧
    (∀ (ps : List PanelData) (p : PanelData) (m : Nat),
      p ∈ ps → idSuffix p.id = some m →
      (∀ u ∈ ps, (idSuffix u.id).getD 0 ≤ m) →
      generatePanelId ps = "panel:" ++ toString (m + 1)) ∧
    (∀ (ts : List TicketData) (r : TicketData),
      r.id = generateTicketId ts →
      idSuffix r.id = some (maxSuffix (ts.filterMap (fun u => idSuffix u.id)) + 1) →
      upsertBy TicketData.id ts r = ts ++ [r] ∧
      (upsertBy TicketData.id ts r).filter (fun u => u.id ≠ r.id) = ts ∧
      generateTicketId ((upsertBy TicketData.id ts r).filter (fun u => u.id ≠ r.id)) = r.id) := by
  refine ⟨⟨rfl, rfl⟩, ?_, ?_, ?_⟩
  · intro ts t m ht hm hle
    unfold generateTicketId
    rw [maxSuffix_eq_of_mem_le _ m (suffix_mem_filterMap _ ts t m ht hm)
      (suffix_filterMap_le _ ts m hle)]
  · intro ps p m hp hm hle
    unfold generatePanelId
    rw [maxSuffix_eq_of_mem_le _ m (suffix_mem_filterMap _ ps p m hp hm)
      (suffix_filterMap_le _ ps m hle)]
  · intro ts r hrid hsuf
    have hfresh : ∀ u ∈ ts, u.id ≠ r.id := by
      intro u hu heq
      have h1 : idSuffix u.id =
          some (maxSuffix (ts.filterMap (fun v => idSuffix v.id)) + 1) := by
        rw [heq]; exact hsuf
      have h2 := suffix_mem_filterMap (fun v => idSuffix v.id) ts u _ hu h1
      have h3 := (maxSuffix_mem_le _ (List.ne_nil_of_mem h2)).2 _ h2
      omega
    have hany : ¬ (ts.any (fun y => y.id = r.id) = true) := by
      rw [List.any_eq_true]
      rintro ⟨u, hu, hpu⟩
      exact hfresh u hu (by simpa using hpu)
    have hup : upsertBy TicketData.id ts r = ts ++ [r] := by
      unfold upsertBy
      rw [if_neg hany]
    have hfilter : (ts ++ [r]).filter (fun u => u.id ≠ r.id) = ts := by
      rw [List.filter_append]
      have hts : ts.filter (fun u => u.id ≠ r.id) = ts :=
        List.filter_eq_self.mpr (by intro u hu; simpa using hfresh u hu)
      have hr : ([r].filter (fun u => u.id ≠ r.id)) = ([] : List TicketData) := by simp
      rw [hts, hr, List.append_nil]
    exact ⟨hup, by rw [hup]; exact hfilter, by rw [hup, hfilter, hrid]⟩

/-- Witness for claim C10 at a concrete two-ticket store. -/
theorem generateId_spec_witness :
    generateTicketId [tk1001, tk1002] = "ticket:" ++ toString (1002 + 1) :=
  generateId_spec.2.1 [tk1001, tk1002] tk1002 1002 (by decide) (by decide) (by decide)

/-
Unfolding lemmas for the close and reopen success paths.
-/

theorem closeTicket_success (s : Store) (actor : Actor) (tid : String) (env : CloseEnv)
    (t : TicketData) (p : PanelData) (c : ChannelInfo)
    (ht : s.getTicket tid = some t) (hstate : ¬ t.state = "closed")
    (hp : s.getPanel t.panelId = some p)
    (hperm : ¬ (t.owner = actor.userId ∧ p.allowOwnerClose = some false ∧
      ¬ isStaff p actor))
    (hc : env.channel = some c) :
    closeTicket s actor tid env =
      (s.saveTicket { t with state := "closed", closedAt := some env.now },
       CloseOutcome.closed (closeSuccessReply (safeChannelOperation env.renameOutcome).success
         (if p.closeCategory.isSome then (safeChannelOperation env.moveOutcome).success
          else true))) := by
  simp only [closeTicket, ht, hp, hc]
  rw [if_neg hstate, if_neg hperm]

theorem reopenTicket_success (s : Store) (tid : String) (env : CloseEnv)
    (t : TicketData) (p : PanelData) (c : ChannelInfo)
    (ht : s.getTicket tid = some t) (hstate : ¬ t.state = "open")
    (hp : s.getPanel t.panelId = some p)
    (hc : env.channel = some c) :
    reopenTicket s tid env =
      (s.saveTicket { t with state := "open", closedAt := none, closeMessageId := none },
       ReopenOutcome.reopened (reopenSuccessReply (safeChannelOperation env.renameOutcome).success
         (if p.openCategory.isSome then (safeChannelOperation env.moveOutcome).success
          else true))) := by
  simp only [reopenTicket, ht, hp, hc]
  rw [if_neg hstate]

/-
Claim C1.
-/

/-- Counterexample to claim C1 as stated: an actor who is neither the
owner nor staff is not rejected by closeTicket; the close goes through
and the stored ticket becomes closed. -/
theorem close_nonowner_close_counterexample :
    malloryActor.userId ≠ tk1001.owner ∧
    isStaff basePanel malloryActor = false ∧
    closeTicket storeC1 malloryActor "ticket:1001" envOkC1 =
      (storeC1.saveTicket { tk1001 with state := "closed", closedAt := some 99 },
       CloseOutcome.closed (closeSuccessReply true true)) ∧
    ((closeTicket storeC1 malloryActor "ticket:1001" envOkC1).1.getTicket
      "ticket:1001").map TicketData.state = some "closed" := by
  refine ⟨by decide, by decide, ?_, ?_⟩ <;> decide

/-- Claim C1 (amended): closeTicket rejects with a user-visible error
and no state change whenever the ticket is already closed, and whenever
the acting user is the owner, the panel disallows owner close, and the
actor is not staff (staff means holding the panels staff role or the
ManageChannels override). An actor who is not the owner is not rejected
by the permission check: with the panel and channel present the close
proceeds and commits. -/
theorem close_reject_policy (s : Store) (actor : Actor) (tid : String) (env : CloseEnv)
    (t : TicketData) (ht : s.getTicket tid = some t) :
    (t.state = "closed" → closeTicket s actor tid env = (s, CloseOutcome.alreadyClosed)) ∧
    (∀ p, ¬ t.state = "closed" → s.getPanel t.panelId = some p →
      t.owner = actor.userId → p.allowOwnerClose = some false → isStaff p actor = false →
      closeTicket s actor tid env = (s, CloseOutcome.ownerCloseDenied)) ∧
    (∀ p c, ¬ t.state = "closed" → s.getPanel t.panelId = some p →
      ¬ t.owner = actor.userId → env.channel = some c →
      ∃ reply, closeTicket s actor tid env =
        (s.saveTicket { t with state := "closed", closedAt := some env.now },
         CloseOutcome.closed reply)) := by
  refine ⟨?_, ?_, ?_⟩
  · intro hclosed
    simp only [closeTicket, ht]
    rw [if_pos hclosed]
  · intro p hstate hp hown hallow hstaff
    simp only [closeTicket, ht, hp]
    rw [if_neg hstate, if_pos ⟨hown, hallow, by simp [hstaff]⟩]
  · intro p c hstate hp hown hc
    exact ⟨_, closeTicket_success s actor tid env t p c ht hstate hp
      (fun h => hown h.1) hc⟩

/-- Witness for claim C1: a close request against an already closed
ticket is rejected with no state change. -/
theorem close_reject_policy_witness :
    closeTicket storeClosedC1 malloryActor "ticket:1005" envOkC1 =
      (storeClosedC1, CloseOutcome.alreadyClosed) :=
  (close_reject_policy storeClosedC1 malloryActor "ticket:1005" envOkC1 tkClosedC1
    (by decide)).1 (by decide)

/-
Lookup-after-save helpers.
-/

theorem find?_map_replace {α : Type} (key : α → String) (xs : List α) (x : α)
    (h : ∃ y ∈ xs, key y = key x) :
    ((xs.map (fun y => if key y = key x then x else y)).find?
      (fun y => key y = key x)) = some x := by
  induction xs with
  | nil => simp at h
  | cons a as ih =>
    by_cases hk : key a = key x
    · simp only [List.map_cons, if_pos hk]
      rw [List.find?_cons_of_pos]
      simp
    · simp only [List.map_cons, if_neg hk]
      rw [List.find?_cons_of_neg]
      · apply ih
        obtain ⟨y, hy, hky⟩ := h
        rcases List.mem_cons.mp hy with rfl | hy2
        · exact absurd hky hk
        · exact ⟨y, hy2, hky⟩
      · simpa using hk

theorem getTicket_saveTicket (s : Store) (t : TicketData)
    (h : ∃ y ∈ s.tickets, y.id = t.id) :
    (s.saveTicket t).getTicket t.id = some t := by
  unfold Store.saveTicket Store.getTicket upsertBy
  have hany : s.tickets.any (fun y => y.id = t.id) = true := by
    rw [List.any_eq_true]
    obtain ⟨y, hy, hk⟩ := h
    exact ⟨y, hy, by simpa using hk⟩
  rw [if_pos hany]
  exact find?_map_replace TicketData.id s.tickets t h

/-
Claim C3.
-/

/-- Claim C3: closing a not-yet-closed ticket and then reopening it
restores state open, clears closedAt and closeMessageId, and leaves
welcomeMessageId exactly as it was before the close. -/
theorem close_reopen_roundtrip (s : Store) (actor : Actor) (tid : String)
    (env1 env2 : CloseEnv) (t : TicketData) (p : PanelData) (c1 c2 : ChannelInfo)
    (ht : s.getTicket tid = some t)
    (hstate : ¬ t.state = "closed")
    (hp : s.getPanel t.panelId = some p)
    (hperm : ¬ (t.owner = actor.userId ∧ p.allowOwnerClose = some false ∧
      ¬ isStaff p actor))
    (hc1 : env1.channel = some c1) (hc2 : env2.channel = some c2) :
    ∃ t', (reopenTicket (closeTicket s actor tid env1).1 tid env2).1.getTicket tid
        = some t' ∧
      t'.state = "open" ∧ t'.closedAt = none ∧ t'.closeMessageId = none ∧
      t'.welcomeMessageId = t.welcomeMessageId := by
  have htid : t.id = tid := by simpa using List.find?_some ht
  have htmem : t ∈ s.tickets := List.mem_of_find?_eq_some ht
  have hclose := closeTicket_success s actor tid env1 t p c1 ht hstate hp hperm hc1
  have hs1 : (closeTicket s actor tid env1).1 =
      s.saveTicket { t with state := "closed", closedAt := some env1.now } := by
    rw [hclose]
  rw [hs1]
  have ht1 : (s.saveTicket { t with state := "closed", closedAt := some env1.now }).getTicket tid
      = some { t with state := "closed", closedAt := some env1.now } := by
    have := getTicket_saveTicket s { t with state := "closed", closedAt := some env1.now }
      ⟨t, htmem, htid.symm ▸ rfl⟩
    simpa [htid] using this
  have hreopen := reopenTicket_success
    (s.saveTicket { t with state := "closed", closedAt := some env1.now }) tid env2
    { t with state := "closed", closedAt := some env1.now } p c2 ht1 (by simp) hp hc2
  rw [hreopen]
  refine ⟨{ t with state := "open", closedAt := none, closeMessageId := none }, ?_, rfl, rfl, rfl, rfl⟩
  have ht1mem : { t with state := "closed", closedAt := some env1.now } ∈
      (s.saveTicket { t with state := "closed", closedAt := some env1.now }).tickets :=
    List.mem_of_find?_eq_some ht1
  have := getTicket_saveTicket
    (s.saveTicket { t with state := "closed", closedAt := some env1.now })
    { t with state := "open", closedAt := none, closeMessageId := none }
    ⟨{ t with state := "closed", closedAt := some env1.now }, ht1mem, rfl⟩
  simpa [htid] using this

/-- Witness for claim C3 at the concrete round-trip scenario. -/
theorem close_reopen_roundtrip_witness :
    ∃ t', (reopenTicket (closeTicket storeC3 malloryActor "ticket:1003" envOkC1).1
        "ticket:1003" envOkC3).1.getTicket "ticket:1003" = some t' ∧
      t'.state = "open" ∧ t'.closedAt = none ∧ t'.closeMessageId = none ∧
      t'.welcomeMessageId = tkC3.welcomeMessageId :=
  close_reopen_roundtrip storeC3 malloryActor "ticket:1003" envOkC1 envOkC3 tkC3
    basePanel { id := "chan-a", name := "ticket-alice" }
    { id := "chan-a", name := "closed-ticket-alice" }
    (by decide) (by decide) (by decide) (by decide) (by decide) (by decide)

/-
Claim C4.
-/

theorem safe_success_eq (o : OpOutcome) :
    (safeChannelOperation o).success = !opFailed o := by
  cases o <;> rfl

/-- Claim C4: a failing or timed-out rename or category move during a
close is returned by safeChannelOperation as success false with an
error (never thrown past the wrapper), the ticket still becomes closed
in the store with its close timestamp set, and the failure surfaces
only as the warning appended to the success reply. -/
theorem close_commits_despite_channel_failure (s : Store) (actor : Actor)
    (tid : String) (env : CloseEnv) (t : TicketData) (p : PanelData) (c : ChannelInfo)
    (ht : s.getTicket tid = some t)
    (hstate : ¬ t.state = "closed")
    (hp : s.getPanel t.panelId = some p)
    (hperm : ¬ (t.owner = actor.userId ∧ p.allowOwnerClose = some false ∧
      ¬ isStaff p actor))
    (hc : env.channel = some c)
    (hfail : opFailed env.renameOutcome = true ∨
      (p.closeCategory.isSome = true ∧ opFailed env.moveOutcome = true)) :
    (∀ o, opFailed o = true →
      (safeChannelOperation o).success = false ∧
      (safeChannelOperation o).error.isSome = true) ∧
    (∃ t', (closeTicket s actor tid env).1.getTicket tid = some t' ∧
      t'.state = "closed" ∧ t'.closedAt = some env.now) ∧
    (closeTicket s actor tid env).2 =
      CloseOutcome.closed
        ("<:tcet_tick:1437995479567962184> Ticket closed successfully." ++
         "\n⚠️ Note: Some channel operations were rate-limited by Discord. The ticket is closed, but the channel may not have been renamed or moved yet.") := by
  have htid : t.id = tid := by simpa using List.find?_some ht
  have htmem : t ∈ s.tickets := List.mem_of_find?_eq_some ht
  have hclose := closeTicket_success s actor tid env t p c ht hstate hp hperm hc
  refine ⟨?_, ?_, ?_⟩
  · intro o ho
    cases o with
    | ok => simp [opFailed] at ho
    | err e => exact ⟨rfl, rfl⟩
    | timeout => exact ⟨rfl, rfl⟩
  · rw [hclose]
    refine ⟨{ t with state := "closed", closedAt := some env.now }, ?_, rfl, rfl⟩
    have := getTicket_saveTicket s { t with state := "closed", closedAt := some env.now }
      ⟨t, htmem, htid.symm ▸ rfl⟩
    simpa [htid] using this
  · rw [hclose]
    have hwarn : ((safeChannelOperation env.renameOutcome).success &&
        (if p.closeCategory.isSome then (safeChannelOperation env.moveOutcome).success
         else true)) = false := by
      rcases hfail with hr | ⟨hcat, hm⟩
      · rw [safe_success_eq, hr]
        simp
      · rw [if_pos hcat, safe_success_eq env.moveOutcome, hm]
        simp
    unfold closeSuccessReply
    rw [hwarn]
    rfl

/-- Witness for claim C4: with the rename timing out, the close still
commits state closed and the reply carries the warning. -/
theorem close_commits_despite_channel_failure_witness :
    (∀ o, opFailed o = true →
      (safeChannelOperation o).success = false ∧
      (safeChannelOperation o).error.isSome = true) ∧
    (∃ t', (closeTicket storeC1 malloryActor "ticket:1001" envTimeoutC4).1.getTicket
        "ticket:1001" = some t' ∧
      t'.state = "closed" ∧ t'.closedAt = some envTimeoutC4.now) ∧
    (closeTicket storeC1 malloryActor "ticket:1001" envTimeoutC4).2 =
      CloseOutcome.closed
        ("<:tcet_tick:1437995479567962184> Ticket closed successfully." ++
         "\n⚠️ Note: Some channel operations were rate-limited by Discord. The ticket is closed, but the channel may not have been renamed or moved yet.") :=
  close_commits_despite_channel_failure storeC1 malloryActor "ticket:1001" envTimeoutC4
    tk1001 basePanel { id := "chan-a", name := "ticket-alice" }
    (by decide) (by decide) (by decide) (by decide) (by decide) (Or.inl (by decide))

/-
Claim C5.
-/

/-- Counterexample to claim C5 as stated: the rejection message does not
name the exact missing fields. Two drafts with disjoint missing sets
(only the name missing versus only the staff role missing) draw the very
same fixed reply, which lists all four required field names both
times. -/
theorem finish_missing_fields_message_counterexample :
    strPresent draftMissingName.name = false ∧
    strPresent draftMissingName.staffRole = true ∧
    strPresent draftMissingStaff.name = true ∧
    strPresent draftMissingStaff.staffRole = false ∧
    (finishSetup storeMissingName "u1" envFin).2 =
      FinishOutcome.missingFields missingFieldsReply ∧
    (finishSetup storeMissingStaff "u1" envFin).2 =
      FinishOutcome.missingFields missingFieldsReply := by
  decide

/-- Claim C5 (amended): whenever any of name, channel, open category or
staff role is absent from the autosave draft, finishSetup writes no
Panel, leaves the whole store (the autosave included) unchanged, and
replies with the fixed error message listing all four required field
names. -/
theorem finish_missing_fields_rejects (s : Store) (userId : String) (env : FinishEnv)
    (a : AutosaveData) (ha : s.getAutosave userId = some a)
    (hmiss : strPresent a.data.name = false ∨ strPresent a.data.channel = false ∨
      strPresent a.data.openCategory = false ∨ strPresent a.data.staffRole = false) :
    finishSetup s userId env = (s, FinishOutcome.missingFields missingFieldsReply) := by
  have hvalid : draftValid a.data = false := by
    unfold draftValid
    rcases hmiss with h | h | h | h <;> simp [h]
  simp only [finishSetup, draftOf, ha]
  simp [hvalid]

/-- Witness for claim C5 at the draft missing only the name. -/
theorem finish_missing_fields_rejects_witness :
    finishSetup storeMissingName "u1" envFin =
      (storeMissingName, FinishOutcome.missingFields missingFieldsReply) :=
  finish_missing_fields_rejects storeMissingName "u1" envFin autosaveMissingName
    (by decide) (Or.inl (by decide))

/-
Claim C6.
-/

/-- Counterexample to claim C6 as stated: the open flow surfaces the
questions in configured order with no type-based reordering, so the
optional-typed question B is surfaced before the primary-typed A. -/
theorem open_question_order_counterexample :
    questionsToShow panelC6 = ["B", "A"] ∧
    questionTypeOf panelC6 "B" = some QuestionType.optional ∧
    questionTypeOf panelC6 "A" = some QuestionType.primary ∧
    noOptionalBeforePrimary ((questionsToShow panelC6).map (questionTypeOf panelC6)) = false ∧
    (openTicket storeC6 "carol" "panel:1001" envOpen).2 = OpenOutcome.modalShown ["B", "A"] := by
  decide

/-- Claim C6 (amended): with intake questions configured and no open
ticket blocking the request, openTicket surfaces the first five
configured questions in configured order (labels truncated to 45
characters), hence at most five regardless of how many are configured;
the primary-before-optional sorting does not happen. -/
theorem open_surfaces_at_most_five (s : Store) (u pid : String) (env : OpenEnv)
    (p : PanelData) (hp : s.getPanel pid = some p)
    (hnone : openFor s u pid = [])
    (hq : p.questions.length > 0) :
    openTicket s u pid env =
      (s, OpenOutcome.modalShown ((p.questions.take 5).map (fun q => q.take 45))) ∧
    ∀ labels, (openTicket s u pid env).2 = OpenOutcome.modalShown labels →
      labels.length ≤ 5 := by
  have h1 : openTicket s u pid env =
      (s, OpenOutcome.modalShown ((p.questions.take 5).map (fun q => q.take 45))) := by
    simp only [openTicket, hp, hnone]
    rw [if_pos hq]
    rfl
  refine ⟨h1, ?_⟩
  intro labels hl
  rw [h1] at hl
  simp only [OpenOutcome.modalShown.injEq] at hl
  subst hl
  rw [List.length_map, List.length_take]
  exact min_le_left 5 p.questions.length

/-- Witness for claim C6: six configured questions surface as exactly
the first five. -/
theorem open_surfaces_at_most_five_witness :
    openTicket storeC6big "carol" "panel:1001" envOpen =
      (storeC6big, OpenOutcome.modalShown ["Q1", "Q2", "Q3", "Q4", "Q5"]) := by
  have h := (open_surfaces_at_most_five storeC6big "carol" "panel:1001" envOpen
    panelC6big (by decide) (by decide) (by decide)).1
  rw [h]
  decide

/-
Claim C7.
-/

/-- Counterexample to claim C7 as stated: the automatic post-close
transcript is delivered to the logs channel too; the logs channel is not
reserved for manual on-demand generation. -/
theorem auto_transcript_logs_counterexample :
    panelC7.logsChannel.isSome = true ∧
    autoGenerateTranscriptAttempts panelC7 =
      [DeliveryTarget.transcriptChannel, DeliveryTarget.logsChannel, DeliveryTarget.ownerDM] ∧
    DeliveryTarget.logsChannel ∈ autoGenerateTranscriptAttempts panelC7 := by
  decide

/-- Claim C7 (amended): the automatic post-close transcript is routed to
the configured transcript channel, the configured logs channel and the
owners direct messages, exactly the same routing as manual on-demand
generation; every delivery is attempted whatever the outcome of the
other attempts (each failure is caught and logged on its own), so the
attempted targets do not depend on the send outcomes. -/
theorem transcript_delivery_routing (p : PanelData)
    (sendOk sendOk' : DeliveryTarget → Bool) :
    (autoGenerateTranscript p sendOk).map Prod.fst = autoGenerateTranscriptAttempts p ∧
    autoGenerateTranscriptAttempts p = generateTranscriptAttempts p ∧
    ((DeliveryTarget.transcriptChannel ∈ autoGenerateTranscriptAttempts p) ↔
      p.transcriptChannel.isSome = true) ∧
    ((DeliveryTarget.logsChannel ∈ autoGenerateTranscriptAttempts p) ↔
      p.logsChannel.isSome = true) ∧
    DeliveryTarget.ownerDM ∈ autoGenerateTranscriptAttempts p ∧
    (autoGenerateTranscript p sendOk).map Prod.fst =
      (autoGenerateTranscript p sendOk').map Prod.fst := by
  refine ⟨?_, rfl, ?_, ?_, ?_, ?_⟩
  · unfold autoGenerateTranscript
    rw [List.map_map]
    exact List.map_id _
  · unfold autoGenerateTranscriptAttempts
    by_cases h1 : p.transcriptChannel.isSome <;> by_cases h2 : p.logsChannel.isSome <;>
      simp [h1, h2]
  · unfold autoGenerateTranscriptAttempts
    by_cases h1 : p.transcriptChannel.isSome <;> by_cases h2 : p.logsChannel.isSome <;>
      simp [h1, h2]
  · unfold autoGenerateTranscriptAttempts
    by_cases h1 : p.transcriptChannel.isSome <;> by_cases h2 : p.logsChannel.isSome <;>
      simp [h1, h2]
  · unfold autoGenerateTranscript
    rw [List.map_map, List.map_map]
    exact rfl

/-
Claim C8.
-/

theorem getPanel_savePanel (s : Store) (p : PanelData)
    (h : ∃ y ∈ s.panels, y.id = p.id) :
    (s.savePanel p).getPanel p.id = some p := by
  unfold Store.savePanel Store.getPanel upsertBy
  have hany : s.panels.any (fun y => y.id = p.id) = true := by
    rw [List.any_eq_true]
    obtain ⟨y, hy, hk⟩ := h
    exact ⟨y, hy, by simpa using hk⟩
  rw [if_pos hany]
  exact find?_map_replace PanelData.id s.panels p h

/-- Claim C8: on Finish with a valid draft, a draft carrying an existing
panel id commits a record under that same id, preserving the stored
ticketsCreated counter and the stored rendered message id, and (with the
message id present) the committed record is what the store holds under
that id after finishSetup, for every deploy outcome; a draft without a
panel id commits under the freshly generated sequential panel id with a
zero counter and no message id; fields left unset by the draft receive
the documented defaults. -/
theorem finish_commit_spec (s : Store) (userId : String) (env : FinishEnv)
    (a : AutosaveData) (ha : s.getAutosave userId = some a)
    (hvalid : draftValid a.data = true) :
    (∀ pid old n mid, a.data.id = some pid →
      draftIsEdit a.data = true →
      s.getPanel pid = some old → old.ticketsCreated = some n →
      old.messageId = some mid →
      (buildPanel s a.data).id = pid ∧
      (buildPanel s a.data).ticketsCreated = some n ∧
      (buildPanel s a.data).messageId = some mid ∧
      (finishSetup s userId env).1.getPanel pid = some (buildPanel s a.data)) ∧
    (draftIsEdit a.data = false →
      (buildPanel s a.data).id = generatePanelId s.panels ∧
      (buildPanel s a.data).ticketsCreated = some 0 ∧
      (buildPanel s a.data).messageId = none) ∧
    ((a.data.label = none → (buildPanel s a.data).label = "Open Ticket") ∧
     (a.data.color = none → (buildPanel s a.data).color = "Primary") ∧
     (a.data.allowOwnerClose = none →
       (buildPanel s a.data).allowOwnerClose = some true) ∧
     (a.data.enabled = none → (buildPanel s a.data).enabled = true) ∧
     (a.data.questions = none → (buildPanel s a.data).questions = []) ∧
     (a.data.claimable = none → (buildPanel s a.data).claimable = false)) := by
  refine ⟨?_, ?_, ?_⟩
  · intro pid old n mid hid hedit hold hn hmid
    have hpid : (if draftIsEdit a.data then a.data.id.getD "" else generatePanelId s.panels)
        = pid := by
      rw [if_pos hedit, hid]
      rfl
    have hbid : (buildPanel s a.data).id = pid := by
      unfold buildPanel
      exact hpid
    have hgd : a.data.id.getD "" = pid := by rw [hid]; rfl
    have hcount : (buildPanel s a.data).ticketsCreated = some n := by
      unfold buildPanel
      simp only [hedit, if_true, hgd, hold, Option.some_bind, hn, Option.getD_some]
    have hmsg : (buildPanel s a.data).messageId = some mid := by
      unfold buildPanel
      simp only [hedit, if_true, hgd, hold, Option.some_bind, hmid]
    refine ⟨hbid, hcount, hmsg, ?_⟩
    have holdmem : old ∈ s.panels := List.mem_of_find?_eq_some hold
    have holdid : old.id = pid := by simpa using List.find?_some hold
    have hsave : ((s.savePanel (buildPanel s a.data)).deleteAutosave userId).getPanel pid
        = some (buildPanel s a.data) := by
      show (s.savePanel (buildPanel s a.data)).getPanel pid = some (buildPanel s a.data)
      have := getPanel_savePanel s (buildPanel s a.data)
        ⟨old, holdmem, by rw [holdid, hbid]⟩
      rwa [hbid] at this
    have hmsgSome : (buildPanel s a.data).messageId.isSome = true := by
      rw [hmsg]; rfl
    simp only [finishSetup, draftOf, ha, hvalid, if_true, hedit, hmsgSome, Bool.and_self]
    by_cases hch : env.channelOk
    · by_cases hed : env.editMessageOk
      · simp [hch, hed, hsave]
      · simp only [hch, hed, if_true, if_false, Bool.false_eq_true]
        exact hsave
    · simp [hch, hsave]
  · intro hedit
    unfold buildPanel
    rw [hedit]
    exact ⟨rfl, rfl, rfl⟩
  · refine ⟨?_, ?_, ?_, ?_, ?_, ?_⟩ <;> intro h <;> unfold buildPanel <;> rw [h] <;> rfl

/-- Witness for claim C8: the concrete edit commit keeps id, counter 7
and message id pm-1, and the store holds the committed record. -/
theorem finish_commit_spec_witness :
    (buildPanel storeEditC8 draftEditC8).id = "panel:1001" ∧
    (buildPanel storeEditC8 draftEditC8).ticketsCreated = some 7 ∧
    (buildPanel storeEditC8 draftEditC8).messageId = some "pm-1" ∧
    (finishSetup storeEditC8 "u8" envFin).1.getPanel "panel:1001" =
      some (buildPanel storeEditC8 draftEditC8) :=
  (finish_commit_spec storeEditC8 "u8" envFin autosaveEditC8 (by decide)
    (by decide)).1 "panel:1001" oldPanelC8 7 "pm-1" (by decide) (by decide)
    (by decide) (by decide) (by decide)

/-
Claim C9.
-/

/-- Claim C9: for every component interaction, route returns normally.
An unregistered system name is logged and the interaction silently
dropped with no notification; a throwing handler is caught and the
generic failure notice attempted through editReply when the interaction
is acknowledged after the defer step, through an ephemeral reply
otherwise, and an error of that notification attempt is itself swallowed
(the route result is the notified form for either notification
outcome). -/
theorem route_never_propagates (handlers : List (String × HandlerSpec))
    (i : Interaction) (env : RouterEnv) (hkind : ¬ i.kind = InteractionKind.other) :
    (handlers.find? (fun h => h.1 = (splitId i.customId).headD "") = none →
      route handlers i env =
        RouteResult.droppedNoHandler ((splitId i.customId).headD "")) ∧
    (∀ sys m,
      handlers.find? (fun h => h.1 = (splitId i.customId).headD "") =
        some (sys, HandlerSpec.throws m) →
      route handlers i env =
        (if (applyDefer i env).repliable then
          RouteResult.errorNotified
            ((applyDefer i env).replied || (applyDefer i env).deferred) env.notifyOk
         else RouteResult.errorNotRepliable)) := by
  constructor
  · intro hnone
    simp only [route, if_neg hkind, hnone]
  · intro sys m hsome
    simp only [route, if_neg hkind, hsome]
    by_cases hrep : (applyDefer i env).repliable
    · rw [if_pos hrep, if_pos hrep]
      by_cases hack : (applyDefer i env).replied ∨ (applyDefer i env).deferred
      · rw [if_pos hack]
        rcases hack with h | h <;> rw [h] <;> simp
      · rw [if_neg hack]
        have h1 : (applyDefer i env).replied = false := by
          cases hr : (applyDefer i env).replied
          · rfl
          · exact absurd (Or.inl hr) hack
        have h2 : (applyDefer i env).deferred = false := by
          cases hd : (applyDefer i env).deferred
          · rfl
          · exact absurd (Or.inr hd) hack
        rw [h1, h2]
        rfl
    · rw [if_neg hrep, if_neg hrep]

/-- Witness for claim C9: the throwing ticket handler is caught; close
is not a modal action so the router deferred first, and the notice goes
through editReply. -/
theorem route_never_propagates_witness :
    route handlersC9 buttonC9 { deferOk := true, notifyOk := true } =
      RouteResult.errorNotified true true := by
  have h := (route_never_propagates handlersC9 buttonC9
    { deferOk := true, notifyOk := true } (by decide)).2 "ticket" "boom" (by decide)
  rw [h]
  decide

/-
Claim C2.
-/

theorem countP_congr_mem {α : Type} (xs : List α) (p q : α → Bool)
    (h : ∀ a ∈ xs, p a = q a) : xs.countP p = xs.countP q := by
  induction xs with
  | nil => rfl
  | cons a as ih =>
    rw [List.countP_cons, List.countP_cons, h a (by simp),
      ih (fun x hx => h x (by simp [hx]))]

theorem countP_le_countP {α : Type} (xs : List α) (p q : α → Bool)
    (h : ∀ a ∈ xs, p a = true → q a = true) : xs.countP p ≤ xs.countP q := by
  induction xs with
  | nil => simp
  | cons a as ih =>
    rw [List.countP_cons, List.countP_cons]
    have hrest := ih (fun x hx => h x (by simp [hx]))
    by_cases hpa : p a = true
    · rw [hpa, h a (by simp) hpa]
      omega
    · rw [Bool.not_eq_true] at hpa
      rw [hpa]
      by_cases hqa : q a = true <;> simp [hqa] <;> omega

theorem countP_key_le_one (xs : List TicketData) (k : String)
    (h : (xs.map TicketData.id).Nodup) :
    xs.countP (fun y => y.id = k) ≤ 1 := by
  induction xs with
  | nil => simp
  | cons a as ih =>
    rw [List.map_cons, List.nodup_cons] at h
    obtain ⟨hnotmem, hnd⟩ := h
    rw [List.countP_cons]
    by_cases hk : a.id = k
    · have hz : as.countP (fun y => decide (y.id = k)) = 0 := by
        rw [List.countP_eq_zero]
        intro y hy
        simp only [decide_eq_true_eq]
        intro hyk
        exact hnotmem (List.mem_map.mpr ⟨y, hy, by rw [hyk, hk]⟩)
      simp [hk, hz]
    · have := ih hnd
      simp only [hk, decide_eq_true_eq]
      simp [hk]
      omega

theorem upsert_mem_self (xs : List TicketData) (x : TicketData) :
    x ∈ upsertBy TicketData.id xs x := by
  unfold upsertBy
  by_cases hany : xs.any (fun y => y.id = x.id) = true
  · rw [if_pos hany]
    rw [List.any_eq_true] at hany
    obtain ⟨y, hy, hyid⟩ := hany
    refine List.mem_map.mpr ⟨y, hy, ?_⟩
    simp only [decide_eq_true_eq] at hyid
    rw [if_pos hyid]
  · rw [if_neg hany]
    simp

theorem nodup_ids_upsert (xs : List TicketData) (x : TicketData)
    (h : (xs.map TicketData.id).Nodup) :
    ((upsertBy TicketData.id xs x).map TicketData.id).Nodup := by
  unfold upsertBy
  by_cases hany : xs.any (fun y => y.id = x.id) = true
  · rw [if_pos hany]
    have heq : (xs.map (fun y => if y.id = x.id then x else y)).map TicketData.id
        = xs.map TicketData.id := by
      rw [List.map_map]
      apply List.map_congr_left
      intro y hy
      by_cases hk : y.id = x.id
      · simp [hk]
      · simp [hk]
    rw [heq]
    exact h
  · rw [if_neg hany]
    rw [List.map_append, List.nodup_append]
    refine ⟨h, List.nodup_singleton _, ?_⟩
    intro a ha hb
    obtain ⟨y, hy, hyid⟩ := List.mem_map.mp ha
    simp only [List.map_cons, List.map_nil, List.mem_singleton] at hb
    rw [List.any_eq_true] at hany
    exact hany ⟨y, hy, by simp [hyid, hb]⟩

/-- Saving one record keeps every owner-panel pair at not more than one
open ticket, provided ids are unique in the table and the saved record,
when itself open for some pair, either finds that pair empty or replaces
a stored open ticket with its own id. -/
theorem atMostOne_upsert (xs : List TicketData) (x : TicketData)
    (hnodup : (xs.map TicketData.id).Nodup)
    (hbound : ∀ u pid, xs.countP (openPred u pid) ≤ 1)
    (hx : ∀ u pid, openPred u pid x = true →
      xs.countP (openPred u pid) = 0 ∨
        ∃ y ∈ xs, y.id = x.id ∧ openPred u pid y = true) :
    ∀ u pid, (upsertBy TicketData.id xs x).countP (openPred u pid) ≤ 1 := by
  intro u pid
  unfold upsertBy
  by_cases hany : xs.any (fun y => y.id = x.id) = true
  · rw [if_pos hany, List.countP_map]
    by_cases hqx : openPred u pid x = true
    · rcases hx u pid hqx with hz | ⟨y0, hy0, hid0, hq0⟩
      · have hall : ∀ y ∈ xs, openPred u pid y = false := by
          intro y hy
          have := List.countP_eq_zero.mp hz y hy
          simpa using this
        have hle : xs.countP ((openPred u pid) ∘ fun y => if y.id = x.id then x else y)
            ≤ xs.countP (fun y => y.id = x.id) := by
          apply countP_le_countP
          intro y hy hcomp
          by_cases hk : y.id = x.id
          · simpa using hk
          · exfalso
            simp only [Function.comp, if_neg hk] at hcomp
            rw [hall y hy] at hcomp
            exact Bool.false_ne_true hcomp
        exact le_trans hle (countP_key_le_one xs x.id hnodup)
      · have heq : ∀ y ∈ xs,
            ((openPred u pid) ∘ fun y => if y.id = x.id then x else y) y
              = openPred u pid y := by
          intro y hy
          by_cases hk : y.id = x.id
          · have hyy0 : y = y0 :=
              List.inj_on_of_nodup_map hnodup hy hy0 (by rw [hk, hid0])
            subst hyy0
            simp only [Function.comp]
            rw [if_pos hk, hqx, hq0]
          · simp [Function.comp, hk]
        rw [countP_congr_mem _ _ _ heq]
        exact hbound u pid
    · have hle : xs.countP ((openPred u pid) ∘ fun y => if y.id = x.id then x else y)
          ≤ xs.countP (openPred u pid) := by
        apply countP_le_countP
        intro y hy hcomp
        by_cases hk : y.id = x.id
        · exfalso
          simp only [Function.comp, if_pos hk] at hcomp
          exact hqx hcomp
        · simpa [Function.comp, hk] using hcomp
      exact le_trans hle (hbound u pid)
  · rw [if_neg hany, List.countP_append]
    by_cases hqx : openPred u pid x = true
    · rcases hx u pid hqx with hz | ⟨y0, hy0, hid0, _⟩
      · rw [hz]
        simp [List.countP_cons, hqx]
      · exact absurd (List.any_eq_true.mpr ⟨y0, hy0, by simpa using hid0⟩) hany
    · have hx0 : List.countP (openPred u pid) [x] = 0 := by
        rw [List.countP_eq_zero]
        intro y hy
        rw [List.mem_singleton] at hy
        subst hy
        simpa using hqx
      rw [hx0]
      have := hbound u pid
      omega

theorem atMostOneOpen_iff (s : Store) :
    atMostOneOpen s ↔ ∀ u pid, s.tickets.countP (openPred u pid) ≤ 1 := by
  unfold atMostOneOpen openFor
  constructor
  · intro h u pid
    rw [List.countP_eq_length_filter]
    exact h u pid
  · intro h u pid
    rw [← List.countP_eq_length_filter]
    exact h u pid

/-- The create path of openTicket preserves the at-most-one-open
invariant: the fresh ticket enters a pair the guard just found empty,
and the second save (attaching the welcome message id) replaces the
first record under its own id. -/
theorem atMostOneOpen_createTicketChannel (s : Store) (u pid : String)
    (panel : PanelData) (env : OpenEnv)
    (hnodup : (s.tickets.map TicketData.id).Nodup)
    (hinv : atMostOneOpen s)
    (hof : openFor s u pid = []) :
    atMostOneOpen (createTicketChannel s u pid panel env).1 := by
  have hbound : ∀ u' pid', s.tickets.countP (openPred u' pid') ≤ 1 :=
    (atMostOneOpen_iff s).mp hinv
  have hzero : s.tickets.countP (openPred u pid) = 0 := by
    rw [List.countP_eq_length_filter]
    unfold openFor at hof
    rw [hof]
    rfl
  have hx1 : ∀ (T : TicketData), T.owner = u → T.state = "open" → T.panelId = pid →
      ∀ u2 pid2, openPred u2 pid2 T = true →
        s.tickets.countP (openPred u2 pid2) = 0 ∨
          ∃ y ∈ s.tickets, y.id = T.id ∧ openPred u2 pid2 y = true := by
    intro T ho hs hpn u2 pid2 hq
    left
    unfold openPred at hq
    simp only [ho, hs, hpn, decide_eq_true_eq] at hq
    obtain ⟨h1, _, h2⟩ := hq
    rw [← h1, ← h2]
    exact hzero
  cases hcn : env.newChannelId with
  | none =>
    simp only [createTicketChannel, hcn]
    exact hinv
  | some cid =>
    cases hwm : env.welcomeMsgId with
    | none =>
      simp only [createTicketChannel, hcn, hwm]
      rw [atMostOneOpen_iff]
      intro u' pid'
      exact atMostOne_upsert s.tickets _ hnodup hbound
        (hx1 _ rfl rfl rfl) u' pid'
    | some wm =>
      simp only [createTicketChannel, hcn, hwm]
      rw [atMostOneOpen_iff]
      intro u' pid'
      refine atMostOne_upsert _ _ (nodup_ids_upsert s.tickets _ hnodup)
        (atMostOne_upsert s.tickets _ hnodup hbound (hx1 _ rfl rfl rfl)) ?_ u' pid'
      intro u2 pid2 hq
      right
      exact ⟨_, upsert_mem_self s.tickets _, rfl, hq⟩

/-- Claim C2: when the requesting user already has an open ticket
against the same panel, openTicket replies with an error pointing at
that tickets channel and changes nothing in the store (no ticket, no
counter increment; no channel creation is requested on this path); and
openTicket preserves the at-most-one-open-ticket-per-owner-and-panel
invariant on every path, given ids unique in the ticket table. -/
theorem open_uniqueness_guard (s : Store) (u pid : String) (env : OpenEnv) :
    (∀ p t rest, s.getPanel pid = some p → openFor s u pid = t :: rest →
      openTicket s u pid env = (s, OpenOutcome.alreadyOpen t.channelId) ∧
      t ∈ s.tickets ∧ t.owner = u ∧ t.state = "open" ∧ t.panelId = pid) ∧
    ((s.tickets.map TicketData.id).Nodup → atMostOneOpen s →
      atMostOneOpen (openTicket s u pid env).1) := by
  constructor
  · intro p t rest hp hof
    have h1 : openTicket s u pid env = (s, OpenOutcome.alreadyOpen t.channelId) := by
      simp only [openTicket, hp, hof]
    have ht : t ∈ openFor s u pid := by
      rw [hof]
      exact List.mem_cons_self t rest
    unfold openFor at ht
    have htm := List.mem_of_mem_filter ht
    have htp := List.of_mem_filter ht
    unfold openPred at htp
    simp only [decide_eq_true_eq] at htp
    exact ⟨h1, htm, htp.1, htp.2.1, htp.2.2⟩
  · intro hnodup hinv
    cases hp : s.getPanel pid with
    | none =>
      simp only [openTicket, hp]
      exact hinv
    | some p =>
      cases hof : openFor s u pid with
      | cons t rest =>
        simp only [openTicket, hp, hof]
        exact hinv
      | nil =>
        simp only [openTicket, hp, hof]
        by_cases hq : p.questions.length > 0
        · rw [if_pos hq]
          exact hinv
        · rw [if_neg hq]
          exact atMostOneOpen_createTicketChannel s u pid p env hnodup hinv hof

/-- Witness for claim C2: alice already has open ticket 1001 against
the panel, so her second open request is turned away pointing at the
existing channel and the store is untouched. -/
theorem open_uniqueness_guard_witness :
    openTicket storeC1 "alice" "panel:1001" envOpen =
      (storeC1, OpenOutcome.alreadyOpen tk1001.channelId) ∧
    tk1001 ∈ storeC1.tickets ∧ tk1001.owner = "alice" ∧ tk1001.state = "open" ∧
    tk1001.panelId = "panel:1001" :=
  (open_uniqueness_guard storeC1 "alice" "panel:1001" envOpen).1 basePanel tk1001 []
    (by decide) (by decide)

end TicketsBot
